import Mathlib

/-!
Verification model of the CedarSim discrete-event simulation core,
`simulation_development/core_models.py`.

Modelling conventions:

* Python numbers (floats and ints) are modelled as exact rationals `ℚ`;
  the single use of `** 0.5` (the square root inside
  `Location.get_demand_variance`) is modelled with `Real.sqrt`.
* Mutable Python objects become immutable Lean structures and every
  mutating method becomes a function returning the updated structure.
* The observer machinery (`add_observer` / `notify_observers`) and the
  mirrored `ResourceState` record only echo the inventory level for
  logging and notification; they carry no behaviour used by the
  simulation semantics and are omitted from the state.
* Event `time` is annotated `int` in the source dataclasses, but the
  engine schedules deliveries at the fractional time
  `current_time + lead_time_weeks`, so times are modelled as `ℚ`.
* `SKU.connected_par_skus` holds Python references to PAR SKU objects;
  the simulation only ever uses emptiness and append order of this
  list, so each reference is modelled by the `(resource_id,
  location_id)` pair that identifies the object.  The back reference
  `_connected_perpetual_sku` is likewise modelled by the resource id of
  the referenced perpetual SKU; where a method dereferences it, the
  state of the referenced object is passed explicitly.
* `lead_time_weeks` is stored by `SKU.__init__` as
  `lead_time_days / 7.0` and never reassigned; it is modelled as the
  derived function `SKU.lead_time_weeks`.
-/

namespace CedarSim

/-- The `DemandEvent` dataclass: a discrete demand event for a SKU. -/
structure DemandEvent where
  sku_id : String
  quantity : ℚ
  time : ℚ
  location_id : String
deriving DecidableEq

/-- The `DeliveryEvent` dataclass: a discrete delivery event for
replenishment; `source` is `"external_supplier"` or
`"emergency_transfer"`. -/
structure DeliveryEvent where
  sku_id : String
  quantity : ℚ
  time : ℚ
  source : String
deriving DecidableEq

/-- The `ReplenishmentEvent` dataclass: a discrete replenishment order
event. -/
structure ReplenishmentEvent where
  sku_id : String
  order_quantity : ℚ
  time : ℚ
  location_id : String
deriving DecidableEq

/-- State of one `SKU` object (class `SKU`, fields set in
`SKU.__init__`).  Underscored Python fields keep their names without
the underscore: `current_level` is `_current_inventory_level`,
`pending_shipments` is `_pending_shipments`, `stockout_amount` is
`_stockout_amount`, `total_stockouts` is `_total_stockouts`,
`total_emergency_transfers` is `_total_emergency_transfers`. -/
structure SKU where
  resource_id : String
  location_id : String
  target_level : ℚ
  lead_time_days : ℚ
  demand_rate : ℚ
  connected_par_skus : List (String × String)
  connected_perpetual_sku : Option String
  current_level : ℚ
  pending_shipments : List DeliveryEvent
  stockout_amount : ℚ
  total_stockouts : ℚ
  total_emergency_transfers : ℚ
deriving DecidableEq

/-- `self.lead_time_weeks = lead_time_days / 7.0`, the derived field
stored at construction and never reassigned. -/
def SKU.lead_time_weeks (s : SKU) : ℚ :=
  s.lead_time_days / 7

/-- `SKU.get_current_level`. -/
def SKU.get_current_level (s : SKU) : ℚ :=
  s.current_level

/-- `SKU.get_stockout_amount`. -/
def SKU.get_stockout_amount (s : SKU) : ℚ :=
  s.stockout_amount

/-- `SKU.set_inventory_level`: `self._current_inventory_level =
max(0, new_level)  # Prevent negative`. -/
def SKU.set_inventory_level (s : SKU) (new_level : ℚ) : SKU :=
  { s with current_level := max 0 new_level }

/-- `SKU.add_emergency_connection` (appends a PAR SKU reference to
`connected_par_skus`). -/
def SKU.add_emergency_connection (s : SKU) (par_sku : String × String) : SKU :=
  { s with connected_par_skus := s.connected_par_skus ++ [par_sku] }

/-- `SKU.set_connected_perpetual_sku` (stores the reference to the
perpetual SKU, modelled by its resource id). -/
def SKU.set_connected_perpetual_sku (s : SKU) (perpetual_id : String) : SKU :=
  { s with connected_perpetual_sku := some perpetual_id }

/-- `SKU.allocate_emergency_supply`: returns the updated perpetual SKU
together with the allocated quantity (the Python return value). -/
def SKU.allocate_emergency_supply (s : SKU) (demand : ℚ) : SKU × ℚ :=
  if s.connected_par_skus = [] then (s, 0)
  else
    let available := s.get_current_level
    if available ≥ demand then
      let allocated := demand
      let s1 := s.set_inventory_level (available - allocated)
      ({ s1 with total_emergency_transfers := s1.total_emergency_transfers + allocated },
       allocated)
    else
      let allocated := demand
      let s1 := s.set_inventory_level (available - allocated)
      let s2 := { s1 with total_stockouts := s1.total_stockouts + (demand - available) }
      ({ s2 with total_emergency_transfers := s2.total_emergency_transfers + allocated },
       allocated)

/-- `SKU.add_pending_shipment`. -/
def SKU.add_pending_shipment (s : SKU) (delivery_event : DeliveryEvent) : SKU :=
  { s with pending_shipments := s.pending_shipments ++ [delivery_event] }

/-- `SKU.get_pending_shipments`: total quantity of pending shipments
arriving by `current_time`. -/
def SKU.get_pending_shipments (s : SKU) (current_time : ℚ) : ℚ :=
  ((s.pending_shipments.filter (fun shipment => shipment.time ≤ current_time)).map
    DeliveryEvent.quantity).sum

/-- First-occurrence removal, the semantics of Python `list.remove`. -/
def listRemoveFirst : List DeliveryEvent → DeliveryEvent → List DeliveryEvent
  | [], _ => []
  | x :: rest, ev => if x = ev then rest else x :: listRemoveFirst rest ev

/-- `SKU.process_delivery_event`: only acts when the event is among the
pending shipments. -/
def SKU.process_delivery_event (s : SKU) (delivery_event : DeliveryEvent) : SKU :=
  if delivery_event ∈ s.pending_shipments then
    let s1 := { s with pending_shipments := listRemoveFirst s.pending_shipments delivery_event }
    s1.set_inventory_level (s1.get_current_level + delivery_event.quantity)
  else s

/-- `SKU.process_demand_event` for a SKU whose
`_connected_perpetual_sku` reference is `None` (in particular for every
perpetual SKU, which never receives such a back reference): the
emergency-supply lookup finds nothing and processing stops after the
stockout bookkeeping. -/
def SKU.process_demand_event_alone (s : SKU) (demand_event : DemandEvent) : SKU :=
  let available_inventory := s.get_current_level
  let demand_amount := demand_event.quantity
  if available_inventory ≥ demand_amount then
    s.set_inventory_level (available_inventory - demand_amount)
  else
    let s1 := s.set_inventory_level 0
    { s1 with stockout_amount := demand_amount - available_inventory,
              total_stockouts := s1.total_stockouts + (demand_amount - available_inventory) }

/-- `SKU.process_demand_event` for a PAR SKU whose
`_connected_perpetual_sku` points at the perpetual SKU `p` (itself
having no back reference of its own).  Returns the updated pair
(PAR SKU, perpetual SKU).  On shortfall the source first calls
`perpetual_sku.process_demand_event(demand_event)` with the full
original event, then `allocate_emergency_supply` with the shortfall. -/
def SKU.process_demand_event_withPerp (s : SKU) (p : SKU) (demand_event : DemandEvent) :
    SKU × SKU :=
  let available_inventory := s.get_current_level
  let demand_amount := demand_event.quantity
  if available_inventory ≥ demand_amount then
    (s.set_inventory_level (available_inventory - demand_amount), p)
  else
    let shortfall := demand_amount - available_inventory
    let s1 := s.set_inventory_level 0
    let s2 := { s1 with stockout_amount := shortfall,
                        total_stockouts := s1.total_stockouts + shortfall }
    let p1 := p.process_demand_event_alone demand_event
    let ar := p1.allocate_emergency_supply s2.stockout_amount
    if ar.2 > 0 then
      let s3 := s2.set_inventory_level ar.2
      ({ s3 with stockout_amount := max 0 (s2.stockout_amount - ar.2) }, ar.1)
    else (s2, ar.1)

/-- `SKU.add_emergency_supply`. -/
def SKU.add_emergency_supply (s : SKU) (amount : ℚ) : SKU :=
  let s1 := s.set_inventory_level (s.get_current_level + amount)
  { s1 with stockout_amount := max 0 (s1.stockout_amount - amount) }

/-- `SKU.calculate_inventory_gap`. -/
def SKU.calculate_inventory_gap (s : SKU) (current_time : ℚ) : ℚ :=
  max 0 (s.target_level - (s.get_current_level + s.get_pending_shipments current_time))

/-- Association-list lookup, the model of Python `dict.get` (a dict has
one entry per key; lookup returns the first matching entry). -/
def alookup {α : Type} : List (String × α) → String → Option α
  | [], _ => none
  | kv :: rest, k => if kv.1 = k then some kv.2 else alookup rest k

/-- Association-list pointwise update, the model of mutating the object
stored in a Python dict under an existing key. -/
def aupdate {α : Type} (l : List (String × α)) (k : String) (v : α) :
    List (String × α) :=
  l.map (fun kv => if kv.1 = k then (kv.1, v) else kv)

/-- State of one `Location` object.  `skus` is the `self.skus` dict
(sku id → SKU object); `max_capacity` is `none` for the default
`float('inf')`.  The replenishment strategy object is stateless and
omitted. -/
structure Location where
  resource_id : String
  location_type : String
  max_capacity : Option ℚ
  skus : List (String × SKU)
deriving DecidableEq

/-- `Location.get_total_inventory` (also the body of
`Location.get_current_level`). -/
def Location.get_total_inventory (loc : Location) : ℚ :=
  (loc.skus.map (fun kv => kv.2.get_current_level)).sum

/-- `Location.get_inventory_levels`. -/
def Location.get_inventory_levels (loc : Location) : List (String × ℚ) :=
  loc.skus.map (fun kv => (kv.1, kv.2.get_current_level))

/-- `Location.get_stockout_summary`. -/
def Location.get_stockout_summary (loc : Location) : List (String × ℚ) :=
  loc.skus.map (fun kv => (kv.1, kv.2.get_stockout_amount))

/-- `Location.get_sku_count`. -/
def Location.get_sku_count (loc : Location) : ℕ :=
  loc.skus.length

/-- `Location.get_stockout_rate`: `(stockout_count / len(self.skus)) *
100.0`, guarded by `if not self.skus: return 0.0`. -/
def Location.get_stockout_rate (loc : Location) : ℚ :=
  if loc.skus = [] then 0
  else
    let stockout_count := (loc.skus.filter (fun kv => kv.2.get_stockout_amount > 0)).length
    ((stockout_count : ℚ) / (loc.skus.length : ℚ)) * 100

/-- `Location.get_average_lead_time`, guarded by
`if not self.skus: return 0.0`. -/
def Location.get_average_lead_time (loc : Location) : ℚ :=
  if loc.skus = [] then 0
  else (loc.skus.map (fun kv => kv.2.lead_time_weeks)).sum / (loc.skus.length : ℚ)

/-- `Location.get_demand_variance`: returns `variance ** 0.5` (a
standard deviation), with early return `0.0` on an empty SKU dict (and
on an empty demand-rate list, which is the same condition).  The
Python float square root is modelled exactly by `Real.sqrt`, making
this the one definition here that is not executable by `decide`. -/
noncomputable def Location.get_demand_variance (loc : Location) : ℝ :=
  if loc.skus = [] then 0
  else
    let demand_rates := loc.skus.map (fun kv => kv.2.demand_rate)
    if demand_rates = [] then 0
    else
      let mean_demand := demand_rates.sum / (demand_rates.length : ℚ)
      let variance := (demand_rates.map (fun rate => (rate - mean_demand) ^ 2)).sum /
        (demand_rates.length : ℚ)
      Real.sqrt (variance : ℝ)

/-- State of a `SimulationManager`.  In the source the same SKU objects
are reachable both through `self.sku_registry` (sku id → list of SKU
objects, one per location) and through `self.locations[loc].skus`;
here `sku_registry` is the single authoritative copy and the
"PERPETUAL" location's dict entry for a sku id is the registry SKU
with that `resource_id` and `location_id = "PERPETUAL"`.
`has_perpetual_location` records whether a location was registered
under the id "PERPETUAL" (`self.locations.get("PERPETUAL")`). -/
structure SimulationManager where
  sku_registry : List (String × List SKU)
  has_perpetual_location : Bool
deriving DecidableEq

/-- `SimulationManager.get_perpetual_sku`: `perpetual_location.skus.get(sku_id)
if perpetual_location else None`. -/
def SimulationManager.get_perpetual_sku (m : SimulationManager) (sku_id : String) :
    Option SKU :=
  if m.has_perpetual_location then
    ((alookup m.sku_registry sku_id).getD []).find? (fun s => s.location_id = "PERPETUAL")
  else none

/-- `SimulationManager.get_par_skus`. -/
def SimulationManager.get_par_skus (m : SimulationManager) (sku_id : String) : List SKU :=
  ((alookup m.sku_registry sku_id).getD []).filter (fun s => s.location_id ≠ "PERPETUAL")

/-- `SimulationManager.setup_emergency_connections`.  The Python loop
mutates, for each registry key `sku_id`, only the SKU objects
registered under that key (the perpetual SKU and the PAR SKUs of that
id), and its reads of other objects are unaffected by those writes, so
the loop is modelled as an independent per-key update of the registry.
When the perpetual counterpart exists and there is at least one PAR
SKU, every PAR SKU is appended (in registry order) to the perpetual's
`connected_par_skus` and receives the back reference; the registry's
own entry for the perpetual object (same resource id, location
"PERPETUAL") reflects the mutation of that shared object.  Otherwise
the key is skipped and nothing changes. -/
def SimulationManager.setup_emergency_connections (m : SimulationManager) :
    SimulationManager :=
  { m with sku_registry := m.sku_registry.map (fun kv =>
      match m.get_perpetual_sku kv.1 with
      | none => kv
      | some p =>
        let par_skus := kv.2.filter (fun s => s.location_id ≠ "PERPETUAL")
        if par_skus = [] then kv
        else
          let p1 := par_skus.foldl
            (fun q par => q.add_emergency_connection (par.resource_id, par.location_id)) p
          (kv.1, kv.2.map (fun s =>
            if s.location_id ≠ "PERPETUAL" then
              s.set_connected_perpetual_sku p.resource_id
            else if s.resource_id = p.resource_id then p1 else s))) }

/-- The `simulation_stats` dict of `DiscreteEventSimulation.__init__`. -/
structure SimStats where
  total_demand : ℚ
  total_stockouts : ℚ
  total_emergency_transfers : ℚ
  total_replenishment_orders : ℕ
deriving DecidableEq

/-- The service level computed by
`DiscreteEventSimulation.print_simulation_summary` when
`total_demand > 0`. -/
def SimStats.service_level (st : SimStats) : ℚ :=
  (st.total_demand - st.total_stockouts) / st.total_demand

/-- The three event kinds dispatched by `run_simulation`. -/
inductive Event
  | demand (e : DemandEvent)
  | delivery (e : DeliveryEvent)
  | replenishment (e : ReplenishmentEvent)
deriving DecidableEq

/-- One entry of the engine's `self.skus` registry: the registered SKU
object together with the dereferenced state of its
`_connected_perpetual_sku` reference (`none` when that reference is
`None`; the perpetual object itself lives outside the registry dict,
whose single slot per id is taken by the registered SKU). -/
structure RegEntry where
  sku : SKU
  perp : Option SKU
deriving DecidableEq

/-- Effect of `sku.process_demand_event(event)` on a registry entry,
following the `_find_connected_perpetual_sku` reference. -/
def RegEntry.afterDemand (entry : RegEntry) (event : DemandEvent) : RegEntry :=
  match entry.perp with
  | none => ⟨entry.sku.process_demand_event_alone event, none⟩
  | some p =>
    let sp := entry.sku.process_demand_event_withPerp p event
    ⟨sp.1, some sp.2⟩

/-- State of a `DiscreteEventSimulation`.  The `heapq` priority queue
is modelled as the list of scheduled events in push order: the claims
below are about which events a processing step schedules, not about
pop order. -/
structure DiscreteEventSimulation where
  current_time : ℚ
  event_queue : List Event
  skus : List (String × RegEntry)
  simulation_stats : SimStats
deriving DecidableEq

/-- `DiscreteEventSimulation.process_demand_event`: guarded by
`if event.sku_id in self.skus`; processes the demand on the SKU,
accumulates `total_demand`, and schedules a replenishment order
(`schedule_replenishment_order`) when the post-demand inventory gap is
positive. -/
def DiscreteEventSimulation.process_demand_event (sim : DiscreteEventSimulation)
    (event : DemandEvent) : DiscreteEventSimulation :=
  match alookup sim.skus event.sku_id with
  | none => sim
  | some entry =>
    let entry1 := entry.afterDemand event
    let stats1 := { sim.simulation_stats with
      total_demand := sim.simulation_stats.total_demand + event.quantity }
    let gap := entry1.sku.calculate_inventory_gap sim.current_time
    let queue1 :=
      if gap > 0 then
        sim.event_queue ++
          [Event.replenishment
            ⟨entry1.sku.resource_id, gap, sim.current_time, entry1.sku.location_id⟩]
      else sim.event_queue
    { sim with skus := aupdate sim.skus event.sku_id entry1,
               simulation_stats := stats1,
               event_queue := queue1 }

/-- `DiscreteEventSimulation.process_delivery_event`: guarded by
`if event.sku_id in self.skus`. -/
def DiscreteEventSimulation.process_delivery_event (sim : DiscreteEventSimulation)
    (event : DeliveryEvent) : DiscreteEventSimulation :=
  match alookup sim.skus event.sku_id with
  | none => sim
  | some entry =>
    let entry1 := RegEntry.mk (entry.sku.process_delivery_event event) entry.perp
    { sim with skus := aupdate sim.skus event.sku_id entry1 }

/-- `DiscreteEventSimulation.process_replenishment_event`: guarded by
`if event.sku_id in self.skus`; counts the order, builds the
`DeliveryEvent` at `current_time + lead_time_weeks` from
`"external_supplier"`, registers it as a pending shipment on the SKU
and schedules it. -/
def DiscreteEventSimulation.process_replenishment_event (sim : DiscreteEventSimulation)
    (event : ReplenishmentEvent) : DiscreteEventSimulation :=
  match alookup sim.skus event.sku_id with
  | none => sim
  | some entry =>
    let stats1 := { sim.simulation_stats with
      total_replenishment_orders := sim.simulation_stats.total_replenishment_orders + 1 }
    let delivery_event : DeliveryEvent :=
      ⟨event.sku_id, event.order_quantity,
       sim.current_time + entry.sku.lead_time_weeks, "external_supplier"⟩
    let entry1 := RegEntry.mk (entry.sku.add_pending_shipment delivery_event) entry.perp
    { sim with
      simulation_stats := stats1,
      skus := aupdate sim.skus event.sku_id entry1,
      event_queue := sim.event_queue ++ [Event.delivery delivery_event] }

/-- The `ResourceFactory.create_sku` factory: a SKU as constructed by
`SKU.__init__`, before any connection or inventory mutation. -/
def create_sku (sku_id location_id : String) (target_level : ℚ := 0)
    (lead_time_days : ℚ := 0) (demand_rate : ℚ := 0) : SKU :=
  { resource_id := sku_id
    location_id := location_id
    target_level := target_level
    lead_time_days := lead_time_days
    demand_rate := demand_rate
    connected_par_skus := []
    connected_perpetual_sku := none
    current_level := 0
    pending_shipments := []
    stockout_amount := 0
    total_stockouts := 0
    total_emergency_transfers := 0 }

/-- One inventory-mutating operation on a PAR SKU, as enumerated by the
spec: demand processing (with or without a connected perpetual SKU),
delivery processing, receipt of emergency supply, and
`set_inventory_level`. -/
inductive ParOp
  | demandAlone (ev : DemandEvent)
  | demandWithPerp (p : SKU) (ev : DemandEvent)
  | delivery (ev : DeliveryEvent)
  | emergency (amount : ℚ)
  | setLevel (new_level : ℚ)

/-- Apply one inventory-mutating operation to a SKU state. -/
def applyParOp (s : SKU) : ParOp → SKU
  | .demandAlone ev => s.process_demand_event_alone ev
  | .demandWithPerp p ev => (s.process_demand_event_withPerp p ev).1
  | .delivery ev => s.process_delivery_event ev
  | .emergency amount => s.add_emergency_supply amount
  | .setLevel new_level => s.set_inventory_level new_level

/-- Apply a sequence of inventory-mutating operations in order. -/
def applyParOps (s : SKU) (ops : List ParOp) : SKU :=
  ops.foldl applyParOp s

lemma set_inventory_level_nonneg (s : SKU) (x : ℚ) :
    0 ≤ (s.set_inventory_level x).current_level :=
  le_max_left 0 x

lemma applyParOp_nonneg (s : SKU) (o : ParOp) (h : 0 ≤ s.current_level) :
    0 ≤ (applyParOp s o).current_level := by
  cases o with
  | demandAlone ev =>
    unfold applyParOp SKU.process_demand_event_alone
    dsimp only
    split
    · exact le_max_left _ _
    · exact le_max_left _ _
  | demandWithPerp p ev =>
    unfold applyParOp SKU.process_demand_event_withPerp
    dsimp only
    split
    · exact le_max_left _ _
    · split
      · exact le_max_left _ _
      · exact le_max_left _ _
  | delivery ev =>
    unfold applyParOp SKU.process_delivery_event
    dsimp only
    split
    · exact le_max_left _ _
    · exact h
  | emergency amount =>
    exact le_max_left _ _
  | setLevel new_level =>
    exact le_max_left _ _

lemma alookup_ne_head {α : Type} (kv : String × α) (rest : List (String × α)) (k : String)
    (hk : ¬ kv.1 = k) : alookup (kv :: rest) k = alookup rest k := by
  rw [alookup]
  simp [if_neg hk]

lemma aupdate_cons {α : Type} (kv : String × α) (rest : List (String × α)) (k : String)
    (v : α) :
    aupdate (kv :: rest) k v = (if kv.1 = k then (kv.1, v) else kv) :: aupdate rest k v :=
  rfl

lemma mem_keys_of_alookup {α : Type} (l : List (String × α)) (k : String) (w : α)
    (h : alookup l k = some w) : k ∈ l.map Prod.fst := by
  induction l with
  | nil => simp [alookup] at h
  | cons kv rest ih =>
    by_cases hk : kv.1 = k
    · simp [List.map_cons, hk.symm]
    · rw [alookup_ne_head _ _ _ hk] at h
      simp only [List.map_cons, List.mem_cons]
      exact Or.inr (ih h)

lemma alookup_aupdate {α : Type} (l : List (String × α)) (k : String) (v w : α)
    (h : alookup l k = some v) : alookup (aupdate l k w) k = some w := by
  induction l with
  | nil => simp [alookup] at h
  | cons kv rest ih =>
    by_cases hk : kv.1 = k
    · rw [aupdate_cons, if_pos hk, alookup, if_pos hk]
    · rw [alookup_ne_head _ _ _ hk] at h
      rw [aupdate_cons, if_neg hk, alookup_ne_head _ _ _ hk]
      exact ih h

lemma aupdate_of_not_mem {α : Type} (l : List (String × α)) (k : String) (v : α)
    (h : alookup l k = none) : aupdate l k v = l := by
  induction l with
  | nil => rfl
  | cons kv rest ih =>
    by_cases hk : kv.1 = k
    · rw [alookup, if_pos hk] at h
      exact absurd h (by simp)
    · rw [alookup_ne_head _ _ _ hk] at h
      rw [aupdate_cons, if_neg hk, ih h]

lemma aupdate_self {α : Type} (l : List (String × α)) (k : String) (v : α)
    (hnd : (l.map Prod.fst).Nodup) (h : alookup l k = some v) : aupdate l k v = l := by
  induction l with
  | nil => rfl
  | cons kv rest ih =>
    simp only [List.map_cons, List.nodup_cons] at hnd
    by_cases hk : kv.1 = k
    · rw [alookup, if_pos hk] at h
      have hv : kv.2 = v := Option.some.inj h
      have hrest : alookup rest k = none := by
        rcases hlook : alookup rest k with _ | w
        · rfl
        · exact absurd (mem_keys_of_alookup rest k w hlook) (hk ▸ hnd.1)
      rw [aupdate_cons, if_pos hk, aupdate_of_not_mem rest k v hrest, ← hv]
    · rw [alookup_ne_head _ _ _ hk] at h
      rw [aupdate_cons, if_neg hk, ih hnd.2 h]

/-- A perpetual SKU with one connected PAR SKU and inventory level 3. -/
def perpC1 : SKU :=
  { create_sku "SKU_001" "PERPETUAL" 100 2 0 with
    connected_par_skus := [("SKU_001", "ED")], current_level := 3 }

/-- C1: for a Perpetual SKU at level L = 3 with a connected PAR SKU,
`allocate_emergency_supply(5)` does return the full 5 and does add
`5 − 3 = 2` to the cumulative stockout counter, but the claimed final
level `L − q = −2` is wrong on the code: `set_inventory_level` clamps
with `max(0, new_level)`, so the level ends at 0, contradicting the
source's own docstring ("Can go negative"), its inline comment ("This
will be negative") and the spec's stated invariant. -/
theorem allocate_emergency_supply_clamps_at_three_five :
    (perpC1.allocate_emergency_supply 5).2 = 5 ∧
    (perpC1.allocate_emergency_supply 5).1.current_level = 0 ∧
    (perpC1.allocate_emergency_supply 5).1.current_level ≠ -2 ∧
    (perpC1.allocate_emergency_supply 5).1.total_stockouts
      = perpC1.total_stockouts + 2 := by
  norm_num [perpC1, create_sku, SKU.allocate_emergency_supply, SKU.set_inventory_level,
    SKU.get_current_level]

/-- A PAR SKU at level 5 connected to a perpetual SKU. -/
def parC2 : SKU :=
  { create_sku "SKU_001" "ED" 50 (3/2) 10 with
    connected_perpetual_sku := some "SKU_001", current_level := 5 }

/-- The perpetual SKU backing `parC2`, at level 75. -/
def perpC2 : SKU :=
  { create_sku "SKU_001" "PERPETUAL" 100 2 0 with
    connected_par_skus := [("SKU_001", "ED")], current_level := 75 }

/-- C2: a demand of 10 on a PAR SKU at level 5 backed by a perpetual
SKU at level 75 leaves the PAR SKU at level 5 with stockout amount 0
as claimed, but the perpetual SKU ends at 60, not 70: before
allocating the shortfall of 5, `process_demand_event` first sends the
full original demand event of 10 to the perpetual SKU
(`perpetual_sku.process_demand_event(demand_event)`), deducting
10 + 5 = 15 in total. -/
theorem demand_shortfall_double_deducts_perpetual :
    ((parC2.process_demand_event_withPerp perpC2 ⟨"SKU_001", 10, 0, "ED"⟩).1.current_level
      = 5) ∧
    ((parC2.process_demand_event_withPerp perpC2 ⟨"SKU_001", 10, 0, "ED"⟩).1.stockout_amount
      = 0) ∧
    ((parC2.process_demand_event_withPerp perpC2 ⟨"SKU_001", 10, 0, "ED"⟩).2.current_level
      = 60) ∧
    ((parC2.process_demand_event_withPerp perpC2 ⟨"SKU_001", 10, 0, "ED"⟩).2.current_level
      ≠ 70) := by
  norm_num [parC2, perpC2, create_sku, SKU.process_demand_event_withPerp,
    SKU.process_demand_event_alone, SKU.allocate_emergency_supply,
    SKU.set_inventory_level, SKU.get_current_level]

/-- C3: any sequence of inventory-mutating operations (demand
processing with or without a connected perpetual SKU, delivery
processing, receipt of emergency supply, `set_inventory_level`) keeps
a SKU's current level nonnegative, because every write goes through
the `max(0, ·)` clamp of `set_inventory_level`.  A freshly constructed
SKU starts at level 0, so the hypothesis holds for every PAR SKU, and
instantiating `ops` at each prefix of a sequence gives the level at
every intermediate time. -/
theorem par_sku_level_nonneg (s : SKU) (h : 0 ≤ s.current_level) (ops : List ParOp) :
    0 ≤ (applyParOps s ops).current_level := by
  induction ops generalizing s with
  | nil => exact h
  | cons o rest ih => exact ih (applyParOp s o) (applyParOp_nonneg s o h)

/-- A PAR SKU at level 6 for exercising the nonnegativity invariant. -/
def skuC3 : SKU := { create_sku "SKU_010" "ICU" 20 7 4 with current_level := 6 }

/-- A sequence of mutations including an over-demand and a negative
`set_inventory_level` argument. -/
def opsC3 : List ParOp :=
  [ParOp.demandAlone ⟨"SKU_010", 9, 0, "ICU"⟩,
   ParOp.setLevel (-4),
   ParOp.emergency 3,
   ParOp.delivery ⟨"SKU_010", 5, 1, "external_supplier"⟩]

/-- Witness for `par_sku_level_nonneg` at a concrete SKU and operation
sequence. -/
theorem par_sku_level_nonneg_witness :
    0 ≤ skuC3.current_level ∧ 0 ≤ (applyParOps skuC3 opsC3).current_level :=
  ⟨by decide, par_sku_level_nonneg skuC3 (by decide) opsC3⟩

/-- C10: every event whose sku id is not in the engine registry is
silently discarded by the `if event.sku_id in self.skus` guards: the
processing functions return the simulation state unchanged (every
SKU, every pending-shipment list and all four statistics counters
included) and raise nothing (each is a total function, as the source
bodies contain no raising operation). -/
theorem unknown_sku_events_ignored (sim : DiscreteEventSimulation) (de : DemandEvent)
    (dv : DeliveryEvent) (re : ReplenishmentEvent)
    (h1 : alookup sim.skus de.sku_id = none)
    (h2 : alookup sim.skus dv.sku_id = none)
    (h3 : alookup sim.skus re.sku_id = none) :
    sim.process_demand_event de = sim ∧ sim.process_delivery_event dv = sim ∧
    sim.process_replenishment_event re = sim := by
  refine ⟨?_, ?_, ?_⟩ <;>
    simp only [DiscreteEventSimulation.process_demand_event,
      DiscreteEventSimulation.process_delivery_event,
      DiscreteEventSimulation.process_replenishment_event, h1, h2, h3]

/-- An engine with a single registered SKU under id "SKU_001". -/
def simC10 : DiscreteEventSimulation :=
  { current_time := 2
    event_queue := []
    skus := [("SKU_001", ⟨parC2, some perpC2⟩)]
    simulation_stats := ⟨0, 0, 0, 0⟩ }

/-- Witness for `unknown_sku_events_ignored` at a concrete engine and
events naming the unregistered id "SKU_999". -/
theorem unknown_sku_events_ignored_witness :
    alookup simC10.skus "SKU_999" = none ∧
    (simC10.process_demand_event ⟨"SKU_999", 4, 2, "ED"⟩ = simC10 ∧
     simC10.process_delivery_event ⟨"SKU_999", 4, 2, "external_supplier"⟩ = simC10 ∧
     simC10.process_replenishment_event ⟨"SKU_999", 4, 2, "ED"⟩ = simC10) :=
  ⟨by decide,
   unknown_sku_events_ignored simC10 ⟨"SKU_999", 4, 2, "ED"⟩
     ⟨"SKU_999", 4, 2, "external_supplier"⟩ ⟨"SKU_999", 4, 2, "ED"⟩
     (by decide) (by decide) (by decide)⟩

/-- C5: processing a ReplenishmentEvent for a registered SKU schedules
exactly one DeliveryEvent (the queue grows by that single event),
carrying the order quantity at time
`current_time + lead_time_days / 7`, and that same record is
registered as a pending shipment on the SKU; the source performs the
registration (`add_pending_shipment`) before the `schedule_event`
push, and the resulting state shows both. -/
theorem replenishment_schedules_delivery (sim : DiscreteEventSimulation)
    (re : ReplenishmentEvent) (entry : RegEntry)
    (h : alookup sim.skus re.sku_id = some entry) :
    (sim.process_replenishment_event re).event_queue
      = sim.event_queue ++
        [Event.delivery ⟨re.sku_id, re.order_quantity,
          sim.current_time + entry.sku.lead_time_days / 7, "external_supplier"⟩] ∧
    alookup (sim.process_replenishment_event re).skus re.sku_id
      = some (RegEntry.mk
          { entry.sku with pending_shipments := entry.sku.pending_shipments ++
              [⟨re.sku_id, re.order_quantity,
                sim.current_time + entry.sku.lead_time_days / 7, "external_supplier"⟩] }
          entry.perp) := by
  constructor
  · simp only [DiscreteEventSimulation.process_replenishment_event, h,
      SKU.lead_time_weeks]
  · simp only [DiscreteEventSimulation.process_replenishment_event, h]
    rw [alookup_aupdate sim.skus re.sku_id entry _ h]
    simp [SKU.add_pending_shipment, SKU.lead_time_weeks]

/-- A registered SKU with lead time of 3.5 days. -/
def skuC5 : SKU := { create_sku "SKU_001" "ED" 30 (7/2) 5 with current_level := 4 }

/-- An engine holding `skuC5` at time 2. -/
def simC5 : DiscreteEventSimulation :=
  { current_time := 2
    event_queue := []
    skus := [("SKU_001", ⟨skuC5, none⟩)]
    simulation_stats := ⟨0, 0, 0, 0⟩ }

/-- A replenishment order of 26 units for `skuC5`. -/
def repC5 : ReplenishmentEvent := ⟨"SKU_001", 26, 2, "ED"⟩

/-- Witness for `replenishment_schedules_delivery` at a concrete
engine state. -/
theorem replenishment_schedules_delivery_witness :
    (simC5.process_replenishment_event repC5).event_queue
      = simC5.event_queue ++
        [Event.delivery ⟨repC5.sku_id, repC5.order_quantity,
          simC5.current_time + skuC5.lead_time_days / 7, "external_supplier"⟩] ∧
    alookup (simC5.process_replenishment_event repC5).skus repC5.sku_id
      = some (RegEntry.mk
          { skuC5 with pending_shipments := skuC5.pending_shipments ++
              [⟨repC5.sku_id, repC5.order_quantity,
                simC5.current_time + skuC5.lead_time_days / 7, "external_supplier"⟩] }
          (none : Option SKU)) :=
  replenishment_schedules_delivery simC5 repC5 ⟨skuC5, none⟩ (by rfl)

/-- C6: the inventory gap of a SKU at time `t` equals
`max(0, target − (current level + sum of pending shipments arriving by
t))`, and after the engine processes a DemandEvent for a registered
SKU it schedules a ReplenishmentEvent for that SKU at the current
time exactly when the post-demand gap is positive: the queue is
extended by that single order (whose quantity is the gap) when the gap
is positive and is unchanged otherwise. -/
theorem inventory_gap_drives_reorder (sim : DiscreteEventSimulation) (de : DemandEvent)
    (entry : RegEntry) (s : SKU) (t : ℚ)
    (h : alookup sim.skus de.sku_id = some entry) :
    s.calculate_inventory_gap t
      = max 0 (s.target_level - (s.current_level +
          ((s.pending_shipments.filter (fun shipment => shipment.time ≤ t)).map
            DeliveryEvent.quantity).sum)) ∧
    (sim.process_demand_event de).event_queue
      = sim.event_queue ++
        (if 0 < (entry.afterDemand de).sku.calculate_inventory_gap sim.current_time then
          [Event.replenishment
            ⟨(entry.afterDemand de).sku.resource_id,
             (entry.afterDemand de).sku.calculate_inventory_gap sim.current_time,
             sim.current_time, (entry.afterDemand de).sku.location_id⟩]
        else []) := by
  constructor
  · rfl
  · simp only [DiscreteEventSimulation.process_demand_event, h]
    by_cases hgap :
        0 < (entry.afterDemand de).sku.calculate_inventory_gap sim.current_time
    · simp [hgap]
    · simp [hgap]

/-- A registered PAR SKU at level 25 with target 50 (spec Scenario A). -/
def skuC6 : SKU := { create_sku "SKU_001" "ED" 50 (3/2) 10 with current_level := 25 }

/-- An engine holding `skuC6` at time 0. -/
def simC6 : DiscreteEventSimulation :=
  { current_time := 0
    event_queue := []
    skus := [("SKU_001", ⟨skuC6, none⟩)]
    simulation_stats := ⟨0, 0, 0, 0⟩ }

/-- A demand of 10 units on `skuC6` at week 0. -/
def devC6 : DemandEvent := ⟨"SKU_001", 10, 0, "ED"⟩

/-- Witness for `inventory_gap_drives_reorder` at a concrete engine
state. -/
theorem inventory_gap_drives_reorder_witness :
    skuC6.calculate_inventory_gap 0
      = max 0 (skuC6.target_level - (skuC6.current_level +
          ((skuC6.pending_shipments.filter (fun shipment => shipment.time ≤ (0:ℚ))).map
            DeliveryEvent.quantity).sum)) ∧
    (simC6.process_demand_event devC6).event_queue
      = simC6.event_queue ++
        (if 0 < ((⟨skuC6, none⟩ : RegEntry).afterDemand devC6).sku.calculate_inventory_gap
            simC6.current_time then
          [Event.replenishment
            ⟨((⟨skuC6, none⟩ : RegEntry).afterDemand devC6).sku.resource_id,
             ((⟨skuC6, none⟩ : RegEntry).afterDemand devC6).sku.calculate_inventory_gap
               simC6.current_time,
             simC6.current_time,
             ((⟨skuC6, none⟩ : RegEntry).afterDemand devC6).sku.location_id⟩]
        else []) :=
  inventory_gap_drives_reorder simC6 devC6 ⟨skuC6, none⟩ skuC6 0 (by rfl)

/-- C8: processing a DeliveryEvent that is not among the target SKU's
pending shipments leaves the simulation state entirely unchanged (in
particular the SKU's level and pending list): the membership guard in
`SKU.process_delivery_event` rejects the event, and processing is a
total function (the source raises nothing), so the run continues with
the same state for subsequent events.  The Nodup hypothesis states
that the registry is a dict (one entry per sku id). -/
theorem unmatched_delivery_rejected (sim : DiscreteEventSimulation) (ev : DeliveryEvent)
    (entry : RegEntry) (hkeys : (sim.skus.map Prod.fst).Nodup)
    (h : alookup sim.skus ev.sku_id = some entry)
    (hnot : ev ∉ entry.sku.pending_shipments) :
    sim.process_delivery_event ev = sim := by
  have hsku : entry.sku.process_delivery_event ev = entry.sku := by
    unfold SKU.process_delivery_event
    rw [if_neg hnot]
  simp only [DiscreteEventSimulation.process_delivery_event, h, hsku]
  show { sim with skus := aupdate sim.skus ev.sku_id entry } = sim
  rw [aupdate_self sim.skus ev.sku_id entry hkeys h]

/-- A delivery record registered as pending on `skuC8`. -/
def dlvC8 : DeliveryEvent := ⟨"SKU_001", 7, 3, "external_supplier"⟩

/-- A registered SKU whose pending list holds only `dlvC8`. -/
def skuC8 : SKU :=
  { create_sku "SKU_001" "ED" 30 7 5 with
    current_level := 4, pending_shipments := [dlvC8] }

/-- An engine holding `skuC8` at time 1. -/
def simC8 : DiscreteEventSimulation :=
  { current_time := 1
    event_queue := []
    skus := [("SKU_001", ⟨skuC8, none⟩)]
    simulation_stats := ⟨0, 0, 0, 0⟩ }

/-- A delivery event that was never registered as a pending shipment
(different arrival time than `dlvC8`). -/
def badDlvC8 : DeliveryEvent := ⟨"SKU_001", 7, 2, "external_supplier"⟩

/-- Witness for `unmatched_delivery_rejected` at a concrete engine
state and unregistered delivery record. -/
theorem unmatched_delivery_rejected_witness :
    ((simC8.skus.map Prod.fst).Nodup ∧
     alookup simC8.skus "SKU_001" = some ⟨skuC8, none⟩ ∧
     badDlvC8 ∉ skuC8.pending_shipments) ∧
    simC8.process_delivery_event badDlvC8 = simC8 :=
  ⟨⟨by decide, by decide, by decide⟩,
   unmatched_delivery_rejected simC8 badDlvC8 ⟨skuC8, none⟩ (by decide) (by decide)
     (by decide)⟩

/-- A PAR SKU at level 0 with target 0, backed by a perpetual SKU. -/
def parC4 : SKU :=
  { create_sku "SKU_001" "ED" 0 1 5 with connected_perpetual_sku := some "SKU_001" }

/-- The perpetual SKU backing `parC4`, at level 10. -/
def perpC4 : SKU :=
  { create_sku "SKU_001" "PERPETUAL" 0 2 0 with
    connected_par_skus := [("SKU_001", "ED")], current_level := 10 }

/-- An engine holding the `parC4`/`perpC4` pair with all statistics at
their initial value 0. -/
def simC4 : DiscreteEventSimulation :=
  { current_time := 0
    event_queue := []
    skus := [("SKU_001", ⟨parC4, some perpC4⟩)]
    simulation_stats := ⟨0, 0, 0, 0⟩ }

/-- A demand of 5 units on `parC4` at week 0.  Processing it incurs a
shortfall of 5 on the PAR SKU and an emergency transfer of 5 from the
perpetual SKU. -/
def devC4 : DemandEvent := ⟨"SKU_001", 5, 0, "ED"⟩

/-- A delivery event addressed to the registered SKU. -/
def dlvC4 : DeliveryEvent := ⟨"SKU_001", 4, 0, "external_supplier"⟩

/-- A replenishment order of 6 units for the registered SKU. -/
def repC4 : ReplenishmentEvent := ⟨"SKU_001", 6, 0, "ED"⟩

/-- C4 counterexample: processing `devC4` incurs a shortfall of 5
(the PAR SKU's cumulative stockout counter grows by 5) and an
emergency transfer of 5 (the perpetual SKU's transfer counter grows by
5), yet the engine's `total_stockouts` and `total_emergency_transfers`
statistics stay 0: no statement in the engine ever increments them. -/
theorem engine_counters_miss_stockout_and_transfer :
    ((simC4.process_demand_event devC4).simulation_stats.total_stockouts = 0) ∧
    ((simC4.process_demand_event devC4).simulation_stats.total_emergency_transfers = 0) ∧
    ((parC4.process_demand_event_withPerp perpC4 devC4).1.total_stockouts
      = parC4.total_stockouts + 5) ∧
    ((parC4.process_demand_event_withPerp perpC4 devC4).2.total_emergency_transfers
      = perpC4.total_emergency_transfers + 5) := by
  have hl : alookup simC4.skus devC4.sku_id = some ⟨parC4, some perpC4⟩ := by rfl
  refine ⟨?_, ?_, ?_, ?_⟩
  · simp only [DiscreteEventSimulation.process_demand_event, hl]
    rfl
  · simp only [DiscreteEventSimulation.process_demand_event, hl]
    rfl
  · norm_num [parC4, perpC4, devC4, create_sku, SKU.process_demand_event_withPerp,
      SKU.process_demand_event_alone, SKU.allocate_emergency_supply,
      SKU.set_inventory_level, SKU.get_current_level]
  · norm_num [parC4, perpC4, devC4, create_sku, SKU.process_demand_event_withPerp,
      SKU.process_demand_event_alone, SKU.allocate_emergency_supply,
      SKU.set_inventory_level, SKU.get_current_level]

/-- C4 (amended): of the four engine statistics, `total_demand` is
incremented by each processed DemandEvent's quantity and
`total_replenishment_orders` by one per processed ReplenishmentEvent,
while `total_stockouts` and `total_emergency_transfers` are never
modified by any event processing (so they keep their initial value 0);
the reported service level equals
`(total_demand − total_stockouts) / total_demand` whenever
`total_demand > 0`. -/
theorem engine_stats_accumulate_incrementally (sim : DiscreteEventSimulation)
    (de : DemandEvent) (dv : DeliveryEvent) (re : ReplenishmentEvent)
    (ed er : RegEntry)
    (hd : alookup sim.skus de.sku_id = some ed)
    (hr : alookup sim.skus re.sku_id = some er) :
    ((sim.process_demand_event de).simulation_stats.total_demand
      = sim.simulation_stats.total_demand + de.quantity) ∧
    ((sim.process_demand_event de).simulation_stats.total_stockouts
      = sim.simulation_stats.total_stockouts) ∧
    ((sim.process_demand_event de).simulation_stats.total_emergency_transfers
      = sim.simulation_stats.total_emergency_transfers) ∧
    ((sim.process_demand_event de).simulation_stats.total_replenishment_orders
      = sim.simulation_stats.total_replenishment_orders) ∧
    ((sim.process_delivery_event dv).simulation_stats = sim.simulation_stats) ∧
    ((sim.process_replenishment_event re).simulation_stats.total_replenishment_orders
      = sim.simulation_stats.total_replenishment_orders + 1) ∧
    ((sim.process_replenishment_event re).simulation_stats.total_demand
      = sim.simulation_stats.total_demand) ∧
    ((sim.process_replenishment_event re).simulation_stats.total_stockouts
      = sim.simulation_stats.total_stockouts) ∧
    ((sim.process_replenishment_event re).simulation_stats.total_emergency_transfers
      = sim.simulation_stats.total_emergency_transfers) ∧
    (0 < sim.simulation_stats.total_demand →
      sim.simulation_stats.service_level
        = (sim.simulation_stats.total_demand - sim.simulation_stats.total_stockouts)
            / sim.simulation_stats.total_demand) := by
  refine ⟨?_, ?_, ?_, ?_, ?_, ?_, ?_, ?_, ?_, fun _ => rfl⟩
  · simp only [DiscreteEventSimulation.process_demand_event, hd]
  · simp only [DiscreteEventSimulation.process_demand_event, hd]
  · simp only [DiscreteEventSimulation.process_demand_event, hd]
  · simp only [DiscreteEventSimulation.process_demand_event, hd]
  · rcases hdv : alookup sim.skus dv.sku_id with _ | e <;>
      simp [DiscreteEventSimulation.process_delivery_event, hdv]
  · simp only [DiscreteEventSimulation.process_replenishment_event, hr]
  · simp only [DiscreteEventSimulation.process_replenishment_event, hr]
  · simp only [DiscreteEventSimulation.process_replenishment_event, hr]
  · simp only [DiscreteEventSimulation.process_replenishment_event, hr]

/-- Witness for `engine_stats_accumulate_incrementally` at a concrete
engine state and concrete events. -/
theorem engine_stats_accumulate_incrementally_witness :
    ((simC4.process_demand_event devC4).simulation_stats.total_demand
      = simC4.simulation_stats.total_demand + devC4.quantity) ∧
    ((simC4.process_demand_event devC4).simulation_stats.total_stockouts
      = simC4.simulation_stats.total_stockouts) ∧
    ((simC4.process_demand_event devC4).simulation_stats.total_emergency_transfers
      = simC4.simulation_stats.total_emergency_transfers) ∧
    ((simC4.process_demand_event devC4).simulation_stats.total_replenishment_orders
      = simC4.simulation_stats.total_replenishment_orders) ∧
    ((simC4.process_delivery_event dlvC4).simulation_stats = simC4.simulation_stats) ∧
    ((simC4.process_replenishment_event repC4).simulation_stats.total_replenishment_orders
      = simC4.simulation_stats.total_replenishment_orders + 1) ∧
    ((simC4.process_replenishment_event repC4).simulation_stats.total_demand
      = simC4.simulation_stats.total_demand) ∧
    ((simC4.process_replenishment_event repC4).simulation_stats.total_stockouts
      = simC4.simulation_stats.total_stockouts) ∧
    ((simC4.process_replenishment_event repC4).simulation_stats.total_emergency_transfers
      = simC4.simulation_stats.total_emergency_transfers) ∧
    (0 < simC4.simulation_stats.total_demand →
      simC4.simulation_stats.service_level
        = (simC4.simulation_stats.total_demand - simC4.simulation_stats.total_stockouts)
            / simC4.simulation_stats.total_demand) :=
  engine_stats_accumulate_incrementally simC4 devC4 dlvC4 repC4
    ⟨parC4, some perpC4⟩ ⟨parC4, some perpC4⟩ (by rfl) (by rfl)

lemma alookup_map_of_key_fix {α : Type} (g : String × α → String × α)
    (hg : ∀ kv, (g kv).1 = kv.1) (l : List (String × α)) (k : String) (v : α)
    (hfix : ∀ w, g (k, w) = (k, w)) (h : alookup l k = some v) :
    alookup (l.map g) k = some v := by
  induction l with
  | nil => simp [alookup] at h
  | cons kv rest ih =>
    by_cases hk : kv.1 = k
    · rw [alookup, if_pos hk] at h
      have hkv : kv = (k, kv.2) := by rw [← hk]
      rw [List.map_cons, hkv, hfix kv.2, alookup, if_pos rfl]
      exact h
    · rw [alookup_ne_head _ _ _ hk] at h
      rw [List.map_cons, alookup_ne_head _ _ _ (by rw [hg kv]; exact hk)]
      exact ih h

/-- C7 (amended): wiring the emergency topology for a sku id whose
`get_perpetual_sku` lookup finds no SKU in the Perpetual Location
silently skips that id: `setup_emergency_connections` completes
normally (the source body contains no raising statement) and the
registry entry for that id — in particular each of its PAR SKUs, left
with no perpetual back reference — is unchanged, so the SKU is not
partially registered either. -/
theorem setup_skips_unmatched_sku (m : SimulationManager) (sku_id : String)
    (lst : List SKU) (h : alookup m.sku_registry sku_id = some lst)
    (hnone : m.get_perpetual_sku sku_id = none) :
    alookup m.setup_emergency_connections.sku_registry sku_id = some lst := by
  unfold SimulationManager.setup_emergency_connections
  dsimp only
  apply alookup_map_of_key_fix _ ?_ _ _ _ ?_ h
  · intro kv
    rcases hp : m.get_perpetual_sku kv.1 with _ | p
    · simp [hp]
    · simp only [hp]
      split
      · rfl
      · rfl
  · intro w
    simp [hnone]

/-- A PAR SKU whose id has no counterpart in the Perpetual Location. -/
def parC7 : SKU := create_sku "SKU_X" "ED" 10 7 2

/-- A manager holding only `parC7` under its id, with a Perpetual
Location present but empty of "SKU_X". -/
def mgrC7 : SimulationManager := ⟨[("SKU_X", [parC7])], true⟩

/-- C7 counterexample: on a registry whose only PAR SKU id has no
matching Perpetual SKU, `setup_emergency_connections` completes and
returns the manager unchanged — no structural-integrity error is
raised (the source body cannot raise) and the PAR SKU is silently
skipped, keeping no perpetual back reference. -/
theorem setup_missing_perpetual_raises_nothing :
    mgrC7.get_perpetual_sku "SKU_X" = none ∧
    mgrC7.setup_emergency_connections = mgrC7 ∧
    parC7.connected_perpetual_sku = none := by
  refine ⟨by rfl, by rfl, by rfl⟩

/-- Witness for `setup_skips_unmatched_sku` at the concrete manager
`mgrC7`. -/
theorem setup_skips_unmatched_sku_witness :
    (alookup mgrC7.sku_registry "SKU_X" = some [parC7] ∧
     mgrC7.get_perpetual_sku "SKU_X" = none) ∧
    alookup mgrC7.setup_emergency_connections.sku_registry "SKU_X" = some [parC7] :=
  ⟨⟨by rfl, by rfl⟩,
   setup_skips_unmatched_sku mgrC7 "SKU_X" [parC7] (by rfl) (by rfl)⟩

/-- A SKU currently in stockout (stockout amount 1). -/
def skuC9a : SKU := { create_sku "A" "ED" 10 7 1 with stockout_amount := 1 }

/-- A SKU with no stockout. -/
def skuC9b : SKU := create_sku "B" "ED" 10 7 3

/-- A PAR location with two SKUs, one of which is in stockout. -/
def locC9 : Location := ⟨"ED", "PAR", none, [("A", skuC9a), ("B", skuC9b)]⟩

/-- C9 counterexample: with one of two SKUs in stockout,
`get_stockout_rate` returns `(1/2) * 100 = 50`, a percentage — not the
fraction `1/2` the claim states. -/
theorem stockout_rate_is_percentage_not_fraction :
    locC9.get_stockout_rate = 50 ∧ locC9.get_stockout_rate ≠ 1/2 := by
  have h50 : locC9.get_stockout_rate = 50 := by
    unfold Location.get_stockout_rate
    rw [if_neg (by simp [locC9])]
    norm_num [locC9, skuC9a, skuC9b, create_sku, SKU.get_stockout_amount]
  refine ⟨h50, ?_⟩
  rw [h50]
  norm_num

/-- C9 (amended): `get_stockout_rate` returns the percentage (fraction
times 100) of the Location's SKUs whose stockout amount is positive,
and every aggregate query on a Location with no SKUs returns zero or
an empty result rather than failing (each is a total function with an
explicit or arithmetic empty-case zero). -/
theorem location_aggregate_queries (loc : Location) :
    loc.get_stockout_rate
      = ((loc.skus.filter (fun kv => kv.2.get_stockout_amount > 0)).length : ℚ)
          / (loc.skus.length : ℚ) * 100 ∧
    (loc.skus = [] →
      loc.get_stockout_rate = 0 ∧ loc.get_average_lead_time = 0 ∧
      loc.get_demand_variance = 0 ∧ loc.get_total_inventory = 0 ∧
      loc.get_inventory_levels = [] ∧ loc.get_stockout_summary = []) := by
  constructor
  · unfold Location.get_stockout_rate
    split
    · rename_i hempty
      rw [hempty]
      simp
    · rfl
  · intro hempty
    refine ⟨?_, ?_, ?_, ?_, ?_, ?_⟩ <;>
      simp [Location.get_stockout_rate, Location.get_average_lead_time,
        Location.get_demand_variance, Location.get_total_inventory,
        Location.get_inventory_levels, Location.get_stockout_summary, hempty]

/-- A Location with no SKUs. -/
def locC9e : Location := ⟨"EMPTY", "PAR", none, []⟩

/-- Witness for `location_aggregate_queries` at a concrete empty
Location. -/
theorem location_aggregate_queries_witness :
    locC9e.get_stockout_rate = 0 ∧ locC9e.get_average_lead_time = 0 ∧
    locC9e.get_demand_variance = 0 ∧ locC9e.get_total_inventory = 0 ∧
    locC9e.get_inventory_levels = [] ∧ locC9e.get_stockout_summary = [] :=
  (location_aggregate_queries locC9e).2 rfl

end CedarSim
